import Mathlib

/-!
Verification of the ulauncher-snippets extension (mikebarkmin/ulauncher-snippets).

Shallow embedding of the Python sources:
  - src/src/filters.py      : the built-in template filters
  - src/src/functions.py    : fuzzyfinder, convert_clipboard, Snippet methods,
                              get_snippets, render_to_file_path
  - src/src/items.py        : show_var_input (variable assignment)
  - src/main.py             : the extension session state machine (on_event, reset)

Python strings are modelled as Lean `String`, with the Python primitive
operations (slicing, strip, split, lower/upper, single-char replace) embedded
as structurally recursive functions over the underlying `List Char` so that
every definition evaluates by kernel reduction.  Python `str.upper`/`str.lower`
are modelled per-character (`Char.toUpper`/`Char.toLower`); the repository only
exercises them on ASCII data.
-/

/-- Python `len(s)` on a string: number of code points. -/
def pyLen (s : String) : Nat := s.data.length

/-- Python slice `s[:n]` (by code points). -/
def strTake (s : String) (n : Nat) : String := ⟨s.data.take n⟩

/-- Python slice `s[n:]` (by code points). -/
def strDrop (s : String) (n : Nat) : String := ⟨s.data.drop n⟩

/-- Python `s.lower()`, modelled per-character. -/
def pyLower (s : String) : String := ⟨s.data.map Char.toLower⟩

/-- Python `s.upper()`, modelled per-character. -/
def pyUpper (s : String) : String := ⟨s.data.map Char.toUpper⟩

/-- Python `s.replace(a, b)` for single-character `a`, `b`, as used in
filters.py (`replace(" ", "_")`, `replace("_", "-")`). -/
def pyReplaceChar (s : String) (a b : Char) : String :=
  ⟨s.data.map fun c => if c = a then b else c⟩

/-- Python `s.strip()`: drop whitespace from both ends. -/
def pyStrip (s : String) : String :=
  ⟨((s.data.dropWhile Char.isWhitespace).reverse.dropWhile Char.isWhitespace).reverse⟩

/-- Helper for `pySplit`: accumulates the current word (reversed) while
scanning; whitespace runs close the word, empty words are not produced. -/
def wordsAux : List Char → List Char → List String
  | [], acc => if acc.isEmpty then [] else [⟨acc.reverse⟩]
  | c :: cs, acc =>
    if c.isWhitespace then
      if acc.isEmpty then wordsAux cs [] else ⟨acc.reverse⟩ :: wordsAux cs []
    else wordsAux cs (c :: acc)

/-- Python `s.split()` with no argument: split on whitespace runs, never
producing empty words. -/
def pySplit (s : String) : List String := wordsAux s.data []

/-- Embeds `camelcase` from src/src/filters.py lines 1-16: split into words;
the first word is lowercased entirely; every later word of length > 1
contributes its first character uppercased followed by the unchanged rest,
a word of length 1 contributes its uppercased character.  When there are no
words the input text is returned unchanged (the loop never assigns). -/
def camelcase (text : String) : String :=
  match pySplit text with
  | [] => text
  | w :: ws =>
    ws.foldl
      (fun acc word =>
        if pyLen word > 1 then acc ++ pyUpper (strTake word 1) ++ strDrop word 1
        else if pyLen word = 1 then acc ++ pyUpper (strTake word 1)
        else acc)
      (pyLower w)

/-- Embeds `pascalcase` from src/src/filters.py lines 19-31: `camelcase`,
then uppercase the first character (three branches exactly as in the source:
length > 1, length = 1, and empty). -/
def pascalcase (text : String) : String :=
  let t := camelcase text
  if pyLen t > 1 then pyUpper (strTake t 1) ++ strDrop t 1
  else if pyLen t = 1 then pyUpper (strTake t 1)
  else t

/-- Embeds `snakecase` from src/src/filters.py lines 34-41: lowercase, then
replace every space with an underscore. -/
def snakecase (text : String) : String :=
  pyReplaceChar (pyLower text) ' ' '_'

/-- Embeds `kebabcase` from src/src/filters.py lines 44-49:
`snakecase(text).replace("_", "-")`. -/
def kebabcase (text : String) : String :=
  pyReplaceChar (snakecase text) '_' '-'

/-- Follows the spec's words (for comparison in claim C7): a string "with its
first character uppercased", unchanged when empty. -/
def upcaseFirstChar (s : String) : String :=
  match s.data with
  | [] => s
  | c :: cs => ⟨c.toUpper :: cs⟩

/-- Stable insertion (descending by score) into an already descending list:
the new element goes in front of the first element whose score it reaches,
so earlier-listed elements stay first on ties. -/
def insertScored (x : Int × String) : List (Int × String) → List (Int × String)
  | [] => [x]
  | y :: ys => if y.1 ≤ x.1 then x :: y :: ys else y :: insertScored x ys

/-- Stable sort, descending by score.  Embeds Python
`sorted(scores, key=lambda score: score[0], reverse=True)` from
src/src/functions.py line 234: Python's sort is stable, and every stable sort
of a list under a total preorder produces the same output, so a stable
insertion sort is an exact model. -/
def sortScoredDesc : List (Int × String) → List (Int × String)
  | [] => []
  | x :: xs => insertScored x (sortScoredDesc xs)

/-- Embeds `fuzzyfinder` from src/src/functions.py lines 224-236: score every
item with the external relevance scorer and return all items sorted by score
descending.  `get_score` (from the external ulauncher library) and
`get_name_from_path` (a thin wrapper over `os.path` utilities, line 231 passes
each item through it) are not part of this repository's sources and are taken
as parameters. -/
def fuzzyfinder (get_score : String → String → Int)
    (get_name_from_path : String → String)
    (search : String) (items : List String) : List String :=
  let scores := items.map fun i => (get_score search (get_name_from_path i), i)
  (sortScoredDesc scores).map fun sc => sc.2

/-- Follows the spec's words (for comparison in claim C1): `q` occurs in `c`
as a case-insensitive, possibly non-contiguous subsequence. -/
def isSubseqChars : List Char → List Char → Bool
  | [], _ => true
  | _ :: _, [] => false
  | a :: as, b :: bs => if a = b then isSubseqChars as bs else isSubseqChars (a :: as) bs

/-- Follows the spec's words (for comparison in claim C1): case-insensitive
subsequence containment of a query in a candidate. -/
def containsQueryCI (q c : String) : Bool :=
  isSubseqChars (q.data.map Char.toLower) (c.data.map Char.toLower)

/-- Value of a hexadecimal digit, as recognised by percent-decoding. -/
def hexDigitVal? (c : Char) : Option Nat :=
  if '0' ≤ c ∧ c ≤ '9' then some (c.toNat - '0'.toNat)
  else if 'a' ≤ c ∧ c ≤ 'f' then some (c.toNat - 'a'.toNat + 10)
  else if 'A' ≤ c ∧ c ≤ 'F' then some (c.toNat - 'A'.toNat + 10)
  else none

/-- Python `urllib.parse.unquote` (external standard library, used by
src/src/functions.py line 309): every `%XX` escape with two hex digits becomes
the character with that code, an invalid escape keeps its `%` literally and
scanning resumes right after it.  Multi-byte UTF-8 escape sequences are
modelled as individual code points; the repository only decodes ASCII
escapes such as `%20`. -/
def unquoteChars : List Char → List Char
  | [] => []
  | '%' :: a :: b :: rest =>
    match hexDigitVal? a, hexDigitVal? b with
    | some ha, some hb => Char.ofNat (16 * ha + hb) :: unquoteChars rest
    | _, _ => '%' :: unquoteChars (a :: b :: rest)
  | c :: rest => c :: unquoteChars rest

/-- Python `s.split(sep)` with an explicit one-character separator: keeps
empty fields, `""` splits to `[""]`. -/
def pySplitChar (sep : Char) : List Char → List (List Char)
  | [] => [[]]
  | c :: cs =>
    match pySplitChar sep cs with
    | [] => [[]]
    | w :: ws => if c = sep then [] :: w :: ws else (c :: w) :: ws

/-- The marker literal tested by `convert_clipboard`
(src/src/functions.py line 305). -/
def nautilusMarker : List Char := "x-special/nautilus-clipboard".data

/-- Embeds `convert_clipboard` from src/src/functions.py lines 300-312: when
the text starts with the nautilus marker, split on newlines, drop the first
two lines, and for EVERY remaining line append `unquote(line[7:])` plus a
newline to the output, finally dropping the output's last character
(`out[:-1]`).  Texts without the marker are returned unchanged. -/
def convert_clipboard (text : String) : String :=
  if nautilusMarker.isPrefixOf text.data then
    let lines := pySplitChar '\n' text.data
    let out := (lines.drop 2).foldl
      (fun out line => out ++ unquoteChars (line.drop 7) ++ ['\n']) []
    ⟨out.dropLast⟩
  else text

/-- Lines joined with a single newline between them, no trailing newline:
the spec's "join decoded lines with newline, dropping the final trailing
newline". -/
def joinWithNl : List (List Char) → List Char
  | [] => []
  | l :: ls =>
    match ls with
    | [] => l
    | _ :: _ => l ++ '\n' :: joinWithNl ls

/-- Follows the spec's words (for comparison in claim C5): like
`convert_clipboard` but decoding only the remaining NON-EMPTY lines ("for
each remaining non-empty line strip a fixed 7-character URI-scheme prefix
and percent-decode the rest"). -/
def convert_clipboard_spec (text : String) : String :=
  if nautilusMarker.isPrefixOf text.data then
    let lines := ((pySplitChar '\n' text.data).drop 2).filter fun l => l ≠ []
    ⟨joinWithNl (lines.map fun line => unquoteChars (line.drop 7))⟩
  else text

/-- One declared variable of a snippet: an entry of the `vars` front-matter
mapping of src/src/functions.py line 102 (`id` is the mapping key; `label`,
`default` come from the file; `value` is assigned during the session,
`none` initially). -/
structure VarSpec where
  id : String
  label : String
  default : Option String := none
  value : Option String := none
deriving DecidableEq

/-- Python truthiness of `variable.get("value")`
(src/src/functions.py line 181): missing and empty-string values are falsy. -/
def varIsSet (v : VarSpec) : Bool :=
  match v.value with
  | none => false
  | some s => s ≠ ""

/-- Embeds `Snippet.next_variable` from src/src/functions.py lines 179-183:
return the first variable, in declaration (insertion) order, whose value is
falsy; `none` when every variable is set. -/
def next_variable : List VarSpec → Option VarSpec
  | [] => none
  | v :: rest => if varIsSet v then next_variable rest else some v

/-- Embeds the variable-assignment part of `show_var_input` from
src/src/items.py lines 24-30: strip the raw input; if the stripped value is
the sentinel `"-"`, assign `variable.get("default", "")`, else assign the
stripped value.  The source then returns two UI result items (lines 32-44);
the UI items are owned by the host and not modelled, the updated variable is
returned instead. -/
def show_var_input (v : VarSpec) (value : String) : VarSpec :=
  let value := pyStrip value
  if value = "-" then { v with value := some (v.default.getD "") }
  else { v with value := some value }

/-- The data of a parsed snippet definition, from `Snippet.__init__`
(src/src/functions.py lines 87-112).  Filesystem-derived fields (icon path,
globals/filters paths) are host-owned and omitted. -/
structure Snippet where
  name : String
  description : String
  vars : List VarSpec
  is_markdown : Bool := false
  file_path_template : Option String := none
  file_overwrite : Bool := false
deriving DecidableEq

/-- A file system as a finite map from paths to contents, the state
`os.path.exists` / `open(..., "w+")` act on. -/
abbrev FileSystem := List (String × String)

/-- Model of `os.path.exists`. -/
def path_exists (fs : FileSystem) (p : String) : Bool :=
  fs.any fun e => e.1 = p

/-- Model of `open(file_path, "w+"); f.write(content)`: create the file or
truncate and rewrite an existing one. -/
def write_file (fs : FileSystem) (p content : String) : FileSystem :=
  if path_exists fs p then fs.map fun e => if e.1 = p then (p, content) else e
  else fs ++ [(p, content)]

/-- Embeds `Snippet.render_to_file_path` from src/src/functions.py lines
114-124.  The two render calls (file-path template and body) happen before
the existence check and are abstracted into the already-rendered `file_path`
(after `os.path.expanduser`) and `content` arguments.  `file_overwrite`
mirrors `self.file_overwrite` (parsed at line 109): it is in scope in the
source but never consulted — if the path does not exist the content is
written and the path returned, otherwise `FileExistsError(file_path)` is
raised unconditionally. -/
def render_to_file_path (fs : FileSystem) (file_overwrite : Bool)
    (file_path content : String) : Except String (String × FileSystem) :=
  if !path_exists fs file_path then Except.ok (file_path, write_file fs file_path content)
  else Except.error file_path

/-- The `for f in suggestions: try ... except: continue` loop of
`get_snippets` (src/src/functions.py lines 341-347): parse each file in
order, appending successful parses and skipping files whose `Snippet(...)`
constructor raises. -/
def snippetsLoop (parse : String → Option Snippet) : List String → List Snippet
  | [] => []
  | f :: rest =>
    match parse f with
    | some s => s :: snippetsLoop parse rest
    | none => snippetsLoop parse rest

/-- Embeds `get_snippets` from src/src/functions.py lines 330-348: rank the
globbed files (taken as the `files` parameter; `glob.glob` is host-owned)
with `fuzzyfinder`, then keep, in rank order, the definitions that parse.
`parse` abstracts the fallible `Snippet(path=f, root_path=path)` constructor
(front-matter loading is file I/O). -/
def get_snippets (get_score : String → String → Int)
    (get_name_from_path : String → String)
    (parse : String → Option Snippet)
    (files : List String) (search : String) : List Snippet :=
  snippetsLoop parse (fuzzyfinder get_score get_name_from_path search files)

/-- The extension's mutable session fields, from `SnippetsExtension`
(src/main.py lines 28-42): the selected snippet, the variable currently
being collected, and the state string (`"select"` or `"var"`). -/
structure ExtState where
  snippet : Option Snippet := none
  var : Option VarSpec := none
  state : String := "select"
deriving DecidableEq

/-- Embeds `SnippetsExtension.reset` from src/main.py lines 39-42. -/
def reset (_e : ExtState) : ExtState :=
  { snippet := none, var := none, state := "select" }

/-- The payload of an `ItemEnterEvent` (`event.get_data()` in src/main.py
line 47): a dict with an optional `type` and an optional `snippet`. -/
structure EventData where
  type : Option String := none
  snippet : Option Snippet := none
deriving DecidableEq

/-- The host preferences read by `on_event` (src/main.py lines 59, 67). -/
structure Preferences where
  snippets_keyword : String
  snippets_copy_mode : String
deriving DecidableEq

/-- The actions `ItemEnterEventLister.on_event` can return, one constructor
per `return` site (src/main.py lines 55, 61, 71, 78/81/83 collapsed by
payload, 89). -/
inductive HostAction where
  | setUserQuery (q : String)
  | varPrompt (keyword : String) (label : String) (defaultShown : String)
  | hideWindow
  | copyToClipboard (content : String)
  | renderErrorList (msg : String)
deriving DecidableEq

/-- The `try ... except ... finally` block of `on_event` (src/main.py lines
66-93).  The outcomes of the effectful calls are parameters:
`renderToFile` for `render_to_file_path` (ok = written path), `render` for
`Snippet.render` (ok = (mimetype, content)), `deliver` for the xsel/wl
clipboard subprocesses, which can also raise.  The `except` branch returns
the error-message result list; the `finally` branch resets the extension on
every path, so the returned state is always `reset ext`. -/
def onEventTry (prefs : Preferences) (renderToFile : Except String String)
    (render : Except String (String × String)) (deliver : Except String Unit)
    (snip : Snippet) (ext : ExtState) : HostAction × ExtState :=
  let result : Except String HostAction :=
    if (snip.file_path_template).isSome then
      match renderToFile with
      | Except.ok _ => Except.ok HostAction.hideWindow
      | Except.error e => Except.error e
    else
      match render with
      | Except.ok (_, content) =>
        if prefs.snippets_copy_mode = "xsel" ∨ prefs.snippets_copy_mode = "wl" then
          match deliver with
          | Except.ok _ => Except.ok HostAction.hideWindow
          | Except.error e => Except.error e
        else Except.ok (HostAction.copyToClipboard content)
      | Except.error e => Except.error e
  (match result with
   | Except.ok a => a
   | Except.error e => HostAction.renderErrorList e,
   reset ext)

/-- The part of `on_event` after the select/cancel dispatch (src/main.py
lines 57-93), starting at `extension.snippet.next_variable()`.  `none`
models the uncaught `AttributeError` when no snippet is selected. -/
def onEventAfterSelect (prefs : Preferences) (renderToFile : Except String String)
    (render : Except String (String × String)) (deliver : Except String Unit)
    (ext : ExtState) : Option (HostAction × ExtState) :=
  match ext.snippet with
  | none => none
  | some snip =>
    match next_variable snip.vars with
    | some v =>
      if ext.state = "var" then
        some (HostAction.varPrompt prefs.snippets_keyword v.label (v.default.getD ""),
              { ext with var := some v })
      else some (onEventTry prefs renderToFile render deliver snip ext)
    | none => some (onEventTry prefs renderToFile render deliver snip ext)

/-- Embeds `ItemEnterEventLister.on_event` from src/main.py lines 46-93:
on a `"select"` event store the snippet and enter the `"var"` state; on a
`"cancel"` event reset and clear the query; otherwise continue with the
current state — prompting for the next unresolved variable when in the
`"var"` state, else rendering and delivering inside the
`try/except/finally` block. -/
def on_event (prefs : Preferences) (renderToFile : Except String String)
    (render : Except String (String × String)) (deliver : Except String Unit)
    (data : EventData) (ext : ExtState) : Option (HostAction × ExtState) :=
  if data.type = some "select" then
    onEventAfterSelect prefs renderToFile render deliver
      { ext with snippet := data.snippet, state := "var" }
  else if data.type = some "cancel" then
    some (HostAction.setUserQuery "", reset ext)
  else
    onEventAfterSelect prefs renderToFile render deliver ext

/-! ## Helper lemmas -/

theorem insertScored_perm (x : Int × String) (l : List (Int × String)) :
    List.Perm (insertScored x l) (x :: l) := by
  induction l with
  | nil => exact List.Perm.refl _
  | cons y ys ih =>
    unfold insertScored
    by_cases h : y.1 ≤ x.1
    · rw [if_pos h]
    · rw [if_neg h]
      exact (List.Perm.cons y ih).trans (List.Perm.swap x y ys)

theorem sortScoredDesc_perm (l : List (Int × String)) :
    List.Perm (sortScoredDesc l) l := by
  induction l with
  | nil => exact List.Perm.refl _
  | cons x xs ih =>
    exact (insertScored_perm x (sortScoredDesc xs)).trans (List.Perm.cons x ih)

theorem fuzzyfinder_perm (get_score : String → String → Int)
    (get_name_from_path : String → String) (search : String) (items : List String) :
    List.Perm (fuzzyfinder get_score get_name_from_path search items) items := by
  unfold fuzzyfinder
  have h1 := (sortScoredDesc_perm
    (items.map fun i => (get_score search (get_name_from_path i), i))).map
    fun sc : Int × String => sc.2
  have h2 : ((items.map fun i => (get_score search (get_name_from_path i), i)).map
      fun sc : Int × String => sc.2) = items := by
    rw [List.map_map]
    exact List.map_id items
  rw [h2] at h1
  exact h1

theorem snippetsLoop_eq_filterMap (parse : String → Option Snippet) (l : List String) :
    snippetsLoop parse l = l.filterMap parse := by
  induction l with
  | nil => rfl
  | cons f rest ih =>
    unfold snippetsLoop
    cases h : parse f with
    | none => rw [List.filterMap_cons, h, ih]
    | some s => rw [List.filterMap_cons, h, ih]

theorem pascalBodyEq (s : String) :
    (if pyLen s > 1 then pyUpper (strTake s 1) ++ strDrop s 1
     else if pyLen s = 1 then pyUpper (strTake s 1)
     else s) = upcaseFirstChar s := by
  obtain ⟨l⟩ := s
  rcases l with _ | ⟨c, _ | ⟨d, cs⟩⟩
  · rfl
  · rfl
  · have h : pyLen ⟨c :: d :: cs⟩ > 1 := by
      simp only [pyLen, List.length_cons]
      omega
    rw [if_pos h]
    rfl

theorem foldlTermLines (g : List Char → List Char) (ls : List (List Char)) :
    ∀ acc : List Char,
      ls.foldl (fun out line => out ++ g line ++ ['\n']) acc
        = acc ++ (ls.map fun l => g l ++ ['\n']).flatten := by
  induction ls with
  | nil => intro acc; simp
  | cons l ls ih =>
    intro acc
    rw [List.foldl_cons, ih, List.map_cons, List.flatten_cons]
    simp [List.append_assoc]

theorem dropLastTermLines (g : List Char → List Char) (ls : List (List Char)) :
    ((ls.map fun l => g l ++ ['\n']).flatten).dropLast = joinWithNl (ls.map g) := by
  induction ls with
  | nil => rfl
  | cons l ls ih =>
    cases ls with
    | nil => simp [joinWithNl]
    | cons l2 ls2 =>
      have hne : ((l2 :: ls2).map fun l => g l ++ ['\n']).flatten ≠ [] := by
        rw [List.map_cons, List.flatten_cons]
        exact List.append_ne_nil_of_left_ne_nil
          (List.append_ne_nil_of_right_ne_nil _ (by simp)) _
      rw [List.map_cons, List.flatten_cons,
        List.dropLast_append_of_ne_nil _ hne, ih]
      simp [joinWithNl, List.append_assoc]

theorem varIsSet_false_iff (v : VarSpec) :
    varIsSet v = false ↔ (v.value = none ∨ v.value = some "") := by
  unfold varIsSet
  rcases hv : v.value with _ | s <;> simp

theorem next_variable_eq_find? (vs : List VarSpec) :
    next_variable vs = vs.find? fun v => !(varIsSet v) := by
  induction vs with
  | nil => rfl
  | cons v rest ih =>
    unfold next_variable
    cases h : varIsSet v with
    | true => rw [if_pos rfl, ih, List.find?_cons_of_neg]; simp [h]
    | false => rw [if_neg (by simp [h]), List.find?_cons_of_pos]; simp [h]

/-! ## Claim theorems -/

/-- Claim C1, counterexample: `fuzzyfinder` does not drop non-qualifying
candidates.  With a concrete scorer (constant, so the stable sort keeps input
order — the dropping behaviour is independent of the scorer, see the amended
theorem), the query `"al"` over `["hi","hu","hallo","false"]` yields all four
candidates, including `"hi"`, which does not contain `"al"` as a
case-insensitive subsequence; the result is not `["false","hallo"]`. -/
theorem C1_counterexample :
    fuzzyfinder (fun _ _ => 0) (fun n => n) "al" ["hi", "hu", "hallo", "false"]
      = ["hi", "hu", "hallo", "false"] ∧
    "hi" ∈ fuzzyfinder (fun _ _ => 0) (fun n => n) "al" ["hi", "hu", "hallo", "false"] ∧
    containsQueryCI "al" "hi" = false ∧
    containsQueryCI "al" "hallo" = true ∧
    containsQueryCI "al" "false" = true ∧
    fuzzyfinder (fun _ _ => 0) (fun n => n) "al" ["hi", "hu", "hallo", "false"]
      ≠ ["false", "hallo"] := by
  refine ⟨rfl, ?_, rfl, rfl, rfl, ?_⟩
  · decide
  · decide

/-- Claim C1 (amended): `fuzzyfinder` never drops a candidate — for every
scorer, name extractor, query and candidate list it returns a permutation of
all the candidates (they are sorted by relevance score descending, stable);
non-qualifying candidates are sorted, not removed. -/
theorem C1_fuzzyfinder_returns_all_candidates
    (get_score : String → String → Int) (get_name_from_path : String → String)
    (search : String) (items : List String) :
    List.Perm (fuzzyfinder get_score get_name_from_path search items) items :=
  fuzzyfinder_perm get_score get_name_from_path search items

/-- Claim C2 (code bug): `render_to_file_path` never consults the
`file_overwrite` flag.  Rendering to a fresh path writes the file and returns
the path, but rendering again to the same, now existing, path raises
`FileExistsError` even though `file_overwrite` is `true`; the existing
content is never replaced. -/
theorem C2_overwrite_flag_ignored :
    render_to_file_path [] true "/home/user/note.md" "new"
      = Except.ok ("/home/user/note.md", [("/home/user/note.md", "new")]) ∧
    render_to_file_path [("/home/user/note.md", "new")] true "/home/user/note.md" "newer"
      = Except.error "/home/user/note.md" ∧
    render_to_file_path [("/home/user/note.md", "new")] false "/home/user/note.md" "newer"
      = Except.error "/home/user/note.md" :=
  ⟨rfl, rfl, rfl⟩

/-- Claim C7: `kebabcase` is `snakecase` with every underscore replaced by a
hyphen, and `pascalcase` is `camelcase` with its first character uppercased
(unchanged when `camelcase` returns the empty string). -/
theorem C7_kebab_pascal_relations (t : String) :
    kebabcase t = pyReplaceChar (snakecase t) '_' '-' ∧
    pascalcase t = upcaseFirstChar (camelcase t) :=
  ⟨rfl, pascalBodyEq (camelcase t)⟩

/-- Claim C8: the four built-in filters on the spec's example input
`"A Test title"`. -/
theorem C8_filter_examples :
    camelcase "A Test title" = "aTestTitle" ∧
    pascalcase "A Test title" = "ATestTitle" ∧
    snakecase "A Test title" = "a_test_title" ∧
    kebabcase "A Test title" = "a-test-title" :=
  ⟨rfl, rfl, rfl, rfl⟩

/-- Claim C10: for every text that does not begin with the nautilus marker,
`convert_clipboard` is the identity. -/
theorem C10_no_marker_identity (text : String)
    (h : nautilusMarker.isPrefixOf text.data = false) :
    convert_clipboard text = text := by
  simp [convert_clipboard, h]

/-- Witness for C10 at the concrete input `"hello"`. -/
theorem C10_no_marker_identity_witness : convert_clipboard "hello" = "hello" :=
  C10_no_marker_identity "hello" (by decide)

/-- Claim C5, counterexample: the decoder does not skip empty remaining
lines.  On marker text whose payload ends with a trailing newline the code
emits an empty decoded entry for the empty final line, yielding `"/a\n"`,
while the spec's per-non-empty-line reading (`convert_clipboard_spec`)
yields `"/a"`. -/
theorem C5_counterexample :
    convert_clipboard "x-special/nautilus-clipboard\ncopy\nfile:///a\n" = "/a\n" ∧
    convert_clipboard_spec "x-special/nautilus-clipboard\ncopy\nfile:///a\n" = "/a" ∧
    ("/a\n" : String) ≠ "/a" :=
  ⟨rfl, rfl, by decide⟩

/-- Claim C5 (amended): for marker text, the decoder drops the first two
lines and then, for EVERY remaining line — empty lines included, each
contributing an empty decoded entry — strips the first 7 characters and
percent-decodes the rest; the decoded entries are joined with newlines with
one final trailing newline dropped.  In particular the spec's example input
decodes to the example output. -/
theorem C5_decode_processes_every_line :
    (∀ text : String, nautilusMarker.isPrefixOf text.data = true →
      convert_clipboard text
        = ⟨joinWithNl (((pySplitChar '\n' text.data).drop 2).map
            fun line => unquoteChars (line.drop 7))⟩) ∧
    convert_clipboard
        "x-special/nautilus-clipboard\ncopy\nfile:///home/root/Screenshot%20on%202020-11-22%2013-22-51.png"
      = "/home/root/Screenshot on 2020-11-22 13-22-51.png" := by
  constructor
  · intro text h
    simp only [convert_clipboard, h, if_true]
    exact congrArg String.mk
      (by rw [foldlTermLines, List.nil_append, dropLastTermLines])
  · rfl

/-- Witness for C5 at the concrete two-file doctest input of
`convert_clipboard`. -/
theorem C5_decode_processes_every_line_witness :
    convert_clipboard "x-special/nautilus-clipboard\ncopy\nfile:///a\nfile:///b"
      = ⟨joinWithNl (((pySplitChar '\n'
          ("x-special/nautilus-clipboard\ncopy\nfile:///a\nfile:///b").data).drop 2).map
          fun line => unquoteChars (line.drop 7))⟩ :=
  C5_decode_processes_every_line.1 _ (by decide)

/-- Claim C4: submitting raw input for a variable first strips surrounding
whitespace; if the stripped input is the sentinel `"-"` the variable's
declared default becomes its value, otherwise the stripped input does. -/
theorem C4_submit_trims_then_assigns (v : VarSpec) (input : String) (d : String) :
    (pyStrip input = "-" → v.default = some d →
      (show_var_input v input).value = some d) ∧
    (pyStrip input ≠ "-" →
      (show_var_input v input).value = some (pyStrip input)) := by
  constructor
  · intro h hd
    simp [show_var_input, h, hd]
  · intro h
    simp [show_var_input, h]

/-- Witness for C4: the sentinel assigns the declared default `"Hi"`,
non-sentinel input is assigned stripped. -/
theorem C4_submit_trims_then_assigns_witness :
    (show_var_input ⟨"other_var", "With default", some "Hi", none⟩ " - ").value
      = some "Hi" ∧
    (show_var_input ⟨"name", "Name", none, none⟩ "  My Component ").value
      = some "My Component" :=
  ⟨(C4_submit_trims_then_assigns ⟨"other_var", "With default", some "Hi", none⟩
      " - " "Hi").1 (by decide) rfl,
   (C4_submit_trims_then_assigns ⟨"name", "Name", none, none⟩
      "  My Component " "").2 (by decide)⟩

/-- Claim C9: a variable with an empty-string value counts as unresolved —
`next_variable` returns the first variable in declaration order whose value
is unset or empty, so a blank submission, or a `"-"` submission for a
variable with no declared default, leaves the variable unresolved and it is
prompted for again. -/
theorem C9_empty_value_unresolved :
    (∀ vs : List VarSpec, next_variable vs = vs.find? fun v => !(varIsSet v)) ∧
    (∀ (vs : List VarSpec) (v : VarSpec), next_variable vs = some v →
      v.value = none ∨ v.value = some "") ∧
    (∀ (v : VarSpec) (rest : List VarSpec) (input : String), pyStrip input = "" →
      next_variable (show_var_input v input :: rest) = some (show_var_input v input)) ∧
    (∀ (v : VarSpec) (rest : List VarSpec), v.default = none →
      next_variable (show_var_input v "-" :: rest) = some (show_var_input v "-")) := by
  refine ⟨next_variable_eq_find?, ?_, ?_, ?_⟩
  · intro vs v h
    rw [next_variable_eq_find? vs] at h
    have h2 := List.find?_some h
    simp only [Bool.not_eq_true'] at h2
    exact (varIsSet_false_iff v).mp h2
  · intro v rest input h
    have hval : (show_var_input v input).value = some "" := by
      simp [show_var_input, h]
    simp [next_variable, varIsSet, hval]
  · intro v rest hd
    have hs : pyStrip "-" = "-" := rfl
    have hval : (show_var_input v "-").value = some "" := by
      simp [show_var_input, hs, hd]
    simp [next_variable, varIsSet, hval]

/-- Witness for C9: a variable whose value is the empty string is reported
unresolved, and blank or defaultless-sentinel submissions are re-prompted. -/
theorem C9_empty_value_unresolved_witness :
    ((⟨"a", "A", none, some ""⟩ : VarSpec).value = none ∨
      (⟨"a", "A", none, some ""⟩ : VarSpec).value = some "") ∧
    next_variable [show_var_input ⟨"n", "L", none, none⟩ "   "]
      = some (show_var_input ⟨"n", "L", none, none⟩ "   ") ∧
    next_variable [show_var_input ⟨"n", "L", none, none⟩ "-"]
      = some (show_var_input ⟨"n", "L", none, none⟩ "-") :=
  ⟨C9_empty_value_unresolved.2.1 [⟨"a", "A", none, some ""⟩] _ rfl,
   C9_empty_value_unresolved.2.2.1 ⟨"n", "L", none, none⟩ [] "   " rfl,
   C9_empty_value_unresolved.2.2.2 ⟨"n", "L", none, none⟩ [] rfl⟩

/-- Claim C6: a file whose snippet definition fails to parse is excluded
from the search results while the rest are kept, in the fuzzy matcher's
rank order (the result is exactly the rank-ordered list filtered through
the parser), and every file that parses is still returned. -/
theorem C6_parse_failures_skipped (get_score : String → String → Int)
    (get_name_from_path : String → String) (parse : String → Option Snippet)
    (files : List String) (search : String) :
    get_snippets get_score get_name_from_path parse files search
      = (fuzzyfinder get_score get_name_from_path search files).filterMap parse ∧
    ∀ f s, f ∈ files → parse f = some s →
      s ∈ get_snippets get_score get_name_from_path parse files search := by
  constructor
  · exact snippetsLoop_eq_filterMap parse _
  · intro f s hf hp
    unfold get_snippets
    rw [snippetsLoop_eq_filterMap]
    exact List.mem_filterMap.mpr
      ⟨f, (fuzzyfinder_perm get_score get_name_from_path search files).mem_iff.mpr hf, hp⟩

/-- Witness for C6: with one well-formed and one malformed file, the
well-formed file's definition is still returned. -/
theorem C6_parse_failures_skipped_witness :
    ({ name := "good", description := "", vars := [] } : Snippet)
      ∈ get_snippets (fun _ _ => 0) (fun n => n)
          (fun f => if f = "bad.j2" then none
                    else some { name := "good", description := "", vars := [] })
          ["good.j2", "bad.j2"] "" :=
  (C6_parse_failures_skipped (fun _ _ => 0) (fun n => n)
      (fun f => if f = "bad.j2" then none
                else some { name := "good", description := "", vars := [] })
      ["good.j2", "bad.j2"] "").2 "good.j2" _ (by decide) rfl

/-- Claim C3: whenever an item-enter event reaches the render/delivery stage
(not a cancel event, a snippet is selected, and no variable is left
unresolved — the Ready state), `on_event` ends with the session reset to
Selecting: snippet, current variable and thereby all collected variable
values are cleared, whether rendering and delivery succeed or fail. -/
theorem C3_complete_always_resets (prefs : Preferences)
    (renderToFile : Except String String) (render : Except String (String × String))
    (deliver : Except String Unit) (data : EventData) (ext : ExtState) (snip : Snippet)
    (hcancel : data.type ≠ some "cancel")
    (hsnip : (if data.type = some "select" then data.snippet else ext.snippet) = some snip)
    (hready : next_variable snip.vars = none) :
    ∃ a, on_event prefs renderToFile render deliver data ext
      = some (a, { snippet := none, var := none, state := "select" }) := by
  by_cases hsel : data.type = some "select"
  · rw [if_pos hsel] at hsnip
    refine ⟨(onEventTry prefs renderToFile render deliver snip
      { ext with snippet := data.snippet, state := "var" }).1, ?_⟩
    simp only [on_event, hsel, if_true, onEventAfterSelect, hsnip, hready]
    rfl
  · rw [if_neg hsel] at hsnip
    refine ⟨(onEventTry prefs renderToFile render deliver snip ext).1, ?_⟩
    simp only [on_event, hsel, hcancel, if_false, ite_false, onEventAfterSelect,
      hsnip, hready]
    rfl

/-- Witness for C3: selecting a variable-free snippet resets the session
both when rendering succeeds and when everything fails. -/
theorem C3_complete_always_resets_witness :
    (∃ a, on_event ⟨"sn", "gtk"⟩ (Except.error "no file template")
        (Except.ok ("text/plain", "hello")) (Except.ok ())
        ⟨some "select", some { name := "s", description := "d", vars := [] }⟩
        ⟨none, none, "select"⟩
      = some (a, { snippet := none, var := none, state := "select" })) ∧
    (∃ a, on_event ⟨"sn", "gtk"⟩ (Except.error "boom") (Except.error "boom")
        (Except.error "boom")
        ⟨some "select", some { name := "s", description := "d", vars := [] }⟩
        ⟨none, none, "select"⟩
      = some (a, { snippet := none, var := none, state := "select" })) :=
  ⟨C3_complete_always_resets _ _ _ _ _ _ _ (by decide) rfl rfl,
   C3_complete_always_resets _ _ _ _ _ _ _ (by decide) rfl rfl⟩
